import Mathlib

/-!
Verification of the AeroEyeBot area-monitoring engine (src/aeroeyebot.py).

The embedding models the Python source shallowly:
* Python floats are modelled as rationals (`ℚ`); every comparison the code
  performs on them is exact, so no rounding behaviour is lost.
* Timestamps are whole seconds (`ℕ`).  `datetime.timedelta.seconds` is the
  seconds-of-day component of the difference: for a nonnegative whole-second
  difference `d` it equals `d % 86400` (NOT the total number of seconds).
* A feed state record is a heterogeneous Python list, modelled as
  `List PyVal`; indexing out of range or comparing a non-number raises, which
  the code catches, so the embedding threads `Except Unit`.
* Python truthiness (`if not longitude`) is modelled by `pyTruthy`:
  `None`, `0`, `False` and `""` are falsy.
* The SQLite table `monitoring_areas` (primary key `chat_id`) is a list of
  rows; `INSERT OR REPLACE` deletes the conflicting row and inserts a fresh
  one, so columns absent from the column list (`area_name`, `created_at`)
  are reset to their defaults (`NULL`, `CURRENT_TIMESTAMP`).
* The cooldown dictionary `notified_flights` is an insertion-ordered
  association list from string keys to timestamps.
-/

namespace AeroEyeBot

/-- A Python value as it appears in an OpenSky feed state record. -/
inductive PyVal where
  | vNone
  | vNum (q : ℚ)
  | vBool (b : Bool)
  | vStr (s : String)
deriving DecidableEq

/-- Python truthiness: `None`, `0`, `False` and the empty string are falsy. -/
def pyTruthy : PyVal → Bool
  | .vNone => false
  | .vNum q => decide (q ≠ 0)
  | .vBool b => b
  | .vStr s => decide (s ≠ "")

/-- Numeric coercion used by Python comparison with a float: numbers compare
as themselves, `bool` compares as `0`/`1` (it is an `int`), and comparing
`None` or a string with a float raises `TypeError` (modelled as `none`). -/
def pyNum : PyVal → Option ℚ
  | .vNum q => some q
  | .vBool b => some (if b then 1 else 0)
  | _ => none

/-- A monitoring area dictionary: keys `north`, `south`, `east`, `west`. -/
structure Area where
  north : ℚ
  south : ℚ
  east : ℚ
  west : ℚ
deriving DecidableEq

/-- List indexing that raises `IndexError` out of range, as `flight_state[i]`. -/
def idx (fs : List PyVal) (i : ℕ) : Except Unit PyVal :=
  match fs.get? i with
  | some v => .ok v
  | none => .error ()

/-- Comparison operand: raises `TypeError` when the value is not a number. -/
def asNum (v : PyVal) : Except Unit ℚ :=
  match pyNum v with
  | some q => .ok q
  | none => .error ()

/-- Body of `is_flight_in_area` before the enclosing `try`/`except`:
length guard, positional reads at indices 5/6/8, the truthiness guard
`if not longitude or not latitude or on_ground: return False`, then the
chained bounding-box comparison. -/
def is_flight_in_area_exc (fs : List PyVal) (area : Area) : Except Unit Bool :=
  if fs.length < 7 then .ok false
  else
    match idx fs 5, idx fs 6, idx fs 8 with
    | .ok longitude, .ok latitude, .ok on_ground =>
      if !pyTruthy longitude || !pyTruthy latitude || pyTruthy on_ground then
        .ok false
      else
        match asNum latitude, asNum longitude with
        | .ok la, .ok lo =>
          .ok (decide (area.south ≤ la ∧ la ≤ area.north ∧
                       area.west ≤ lo ∧ lo ≤ area.east))
        | _, _ => .error ()
    | _, _, _ => .error ()

/-- `is_flight_in_area`: the body above wrapped in the source's
`try: ... except: return False`. -/
def is_flight_in_area (fs : List PyVal) (area : Area) : Bool :=
  match is_flight_in_area_exc fs area with
  | .ok b => b
  | .error _ => false

/-- Build a full-length (12-slot) feed state record from its interesting
fields: `[0]` aircraft id, `[5]` longitude, `[6]` latitude, `[8]` on_ground;
a missing position is `None`. -/
def mkState (icao : Option String) (lon la : Option ℚ) (og : Bool) : List PyVal :=
  [icao.elim .vNone .vStr, .vNone, .vNone, .vNone, .vNone,
   lon.elim .vNone .vNum, la.elim .vNone .vNum, .vNone,
   .vBool og, .vNone, .vNone, .vNone]

/-- `validate_coordinates`: range checks, then `north <= south` and
`west >= east` rejections. -/
def validate_coordinates (north south east west : ℚ) : Bool :=
  if ¬ (-90 ≤ north ∧ north ≤ 90 ∧ -90 ≤ south ∧ south ≤ 90) then false
  else if ¬ (-180 ≤ east ∧ east ≤ 180 ∧ -180 ≤ west ∧ west ≤ 180) then false
  else if north ≤ south then false
  else if west ≥ east then false
  else true

/-- The cooldown dictionary `notified_flights`: an insertion-ordered map from
string keys to last-notified timestamps (whole seconds). -/
abbrev CooldownMap : Type := List (String × ℕ)

/-- Python dict lookup `m[key]` as an option. -/
def lookupKey (m : CooldownMap) (key : String) : Option ℕ :=
  (List.find? (fun kv => kv.1 == key) m).map (fun kv => kv.2)

/-- Python dict assignment `m[key] = v`: update in place when the key exists,
append otherwise. -/
def setKey (m : CooldownMap) (key : String) (v : ℕ) : CooldownMap :=
  if List.any m (fun kv => kv.1 == key) then
    List.map (fun kv => if kv.1 == key then (key, v) else kv) m
  else m ++ [(key, v)]

/-- `timedelta.seconds` for a nonnegative whole-second difference: the
seconds-of-day component, i.e. the difference modulo 86400.  The source uses
this attribute (not `total_seconds()`) in both the cooldown check and the
sweep. -/
def timedeltaSeconds (diff : ℕ) : ℕ := diff % 86400

/-- The inline cooldown check of `monitor_flights`: notify unless the key is
recorded and `(now - last).seconds < 1800`. -/
def should_notify (m : CooldownMap) (key : String) (now : ℕ) : Bool :=
  match lookupKey m key with
  | none => true
  | some t0 => ¬ timedeltaSeconds (now - t0) < 1800

/-- The per-cycle cleanup of `monitor_flights`: keep exactly the entries with
`(current_time - timestamp).seconds < 3600`. -/
def sweep (m : CooldownMap) (now : ℕ) : CooldownMap :=
  List.filter (fun kv => timedeltaSeconds (now - kv.2) < 3600) m

/-- Outcome of the HTTP GET inside `get_flights_in_area`: either a response
with a status code and an optional parsed `states` array (`none` models a
falsy body or a body without a `states` key, both defaulted to `[]`), or a
raised exception (network failure, timeout, JSON error). -/
inductive ApiResult where
  | response (status : ℕ) (body : Option (List (List PyVal)))
  | raised
deriving DecidableEq

/-- `get_flights_in_area`: on a 200 response return `data.get('states', [])`;
on any other status, or any exception, log an error and return `[]`.  The
first component is the returned flight list, the second the error log. -/
def get_flights_in_area : ApiResult → List (List PyVal) × List String
  | .response status body =>
      if status = 200 then (body.getD [], [])
      else ([], ["API Error: " ++ toString status])
  | .raised => ([], ["Error fetching flights"])

/-- The cooldown key `f"..."` built from chat id and aircraft id with an
underscore between them. -/
def notifKey (chat : ℕ) (icao : String) : String :=
  toString chat ++ "_" ++ icao

/-- Python `str(v)` for the values a state record can hold. -/
def pyToStr : PyVal → String
  | .vNone => "None"
  | .vNum q => toString q
  | .vBool b => if b then "True" else "False"
  | .vStr s => s

/-- `icao24 = flight_state[0] or "unknown"`: the first field when truthy,
the literal `"unknown"` otherwise (also when the record is empty). -/
def icaoOf (fs : List PyVal) : String :=
  match fs.get? 0 with
  | some v => if pyTruthy v then pyToStr v else "unknown"
  | none => "unknown"

/-- The external world a monitoring cycle interacts with: per-chat feed
outcome, per-(chat, aircraft) Telegram send outcome, and an oracle saying
whether processing a subscriber raises an unexpected exception (the trigger
of the per-subscriber `except Exception` handler). -/
structure MonitorEnv where
  fetch : ℕ → ApiResult
  sink : ℕ → String → Bool
  crash : ℕ → Bool

/-- The `try: send; record; except: log` block around one notification:
on sink success the cooldown entry is written and the delivery is recorded,
on sink failure nothing is written and the failure is logged.  Result:
(cooldown map, successful deliveries, error log). -/
def handle_event (sinkOk : Bool) (m : CooldownMap) (key : String) (now : ℕ)
    (chat : ℕ) (icao : String) :
    CooldownMap × List (ℕ × String) × List String :=
  if sinkOk then (setKey m key now, [(chat, icao)], [])
  else (m, [], ["Failed to send notification to " ++ toString chat])

/-- The inner `for flight_state in flights` loop of `monitor_flights` for one
subscriber: filter by `is_flight_in_area`, apply the cooldown check, then
send/record via `handle_event`.  Result: (cooldown map, successful
deliveries, error log). -/
def run_flights (env : MonitorEnv) (chat : ℕ) (area : Area) (now : ℕ) :
    List (List PyVal) → CooldownMap →
    CooldownMap × List (ℕ × String) × List String
  | [], m => (m, [], [])
  | fs :: rest, m =>
    if is_flight_in_area fs area then
      let icao := icaoOf fs
      let key := notifKey chat icao
      if should_notify m key now then
        let r1 := handle_event (env.sink chat icao) m key now chat icao
        let r2 := run_flights env chat area now rest r1.1
        (r2.1, r1.2.1 ++ r2.2.1, r1.2.2 ++ r2.2.2)
      else
        run_flights env chat area now rest m
    else
      run_flights env chat area now rest m

/-- One pass of the `for chat_id, area in list(self.monitoring_areas.items())`
loop: each subscriber is processed inside its own `try`/`except`, so a raised
exception only logs and moves on; a feed error yields an empty flight list
from `get_flights_in_area`.  Result: (cooldown map, successful deliveries,
error log). -/
def run_cycle (env : MonitorEnv) (now : ℕ) :
    List (ℕ × Area) → CooldownMap →
    CooldownMap × List (ℕ × String) × List String
  | [], m => (m, [], [])
  | (chat, area) :: rest, m =>
    if env.crash chat then
      let r2 := run_cycle env now rest m
      (r2.1, r2.2.1, ("Error monitoring area for " ++ toString chat) :: r2.2.2)
    else
      let fr := get_flights_in_area (env.fetch chat)
      let r1 := run_flights env chat area now fr.1 m
      let r2 := run_cycle env now rest r1.1
      (r2.1, r1.2.1 ++ r2.2.1, fr.2 ++ r1.2.2 ++ r2.2.2)

/-- A row of the SQLite table `monitoring_areas` (primary key `chat_id`). -/
structure AreaRow where
  chat_id : ℕ
  area_name : Option String
  north : ℚ
  south : ℚ
  east : ℚ
  west : ℚ
  is_active : Bool
  created_at : ℕ
deriving DecidableEq

/-- The durable table plus the in-memory `monitoring_areas` dictionary of the
running process. -/
structure BotState where
  db : List AreaRow
  monitoring : List (ℕ × Area)
deriving DecidableEq

/-- `SELECT * FROM monitoring_areas WHERE chat_id = ?`. -/
def get_area (db : List AreaRow) (chat : ℕ) : Option AreaRow :=
  List.find? (fun r => r.chat_id == chat) db

/-- `SELECT * FROM monitoring_areas WHERE chat_id = ? AND is_active = 1`. -/
def get_active_area (db : List AreaRow) (chat : ℕ) : Option AreaRow :=
  List.find? (fun r => r.chat_id == chat && r.is_active) db

/-- `save_user_area`: `INSERT OR REPLACE` with explicit columns
`(chat_id, north_lat, south_lat, east_lon, west_lon, is_active)` and value 1
for `is_active`.  REPLACE deletes any row with the same primary key and
inserts a fresh one, so the omitted columns take their defaults:
`area_name = NULL` and `created_at = CURRENT_TIMESTAMP` (the time `now` of
the insert). -/
def save_user_area (db : List AreaRow) (chat : ℕ) (north south east west : ℚ)
    (now : ℕ) : List AreaRow :=
  List.filter (fun r => ! (r.chat_id == chat)) db ++
    [⟨chat, none, north, south, east, west, true, now⟩]

/-- Python dict assignment on the in-memory `monitoring_areas` dictionary. -/
def setChat (mm : List (ℕ × Area)) (chat : ℕ) (a : Area) : List (ℕ × Area) :=
  if List.any mm (fun kv => kv.1 == chat) then
    List.map (fun kv => if kv.1 == chat then (chat, a) else kv) mm
  else mm ++ [(chat, a)]

/-- Lookup in the in-memory `monitoring_areas` dictionary. -/
def lookupChat (mm : List (ℕ × Area)) (chat : ℕ) : Option Area :=
  (List.find? (fun kv => kv.1 == chat) mm).map (fun kv => kv.2)

/-- `start_user_monitoring`: read the active stored row for the chat; if none
exists, reply with an error and change nothing; otherwise install the row's
bounds in the in-memory dictionary.  The database is only read. -/
def start_user_monitoring (st : BotState) (chat : ℕ) : BotState :=
  match get_active_area st.db chat with
  | none => st
  | some r => { st with monitoring := setChat st.monitoring chat ⟨r.north, r.south, r.east, r.west⟩ }

/-- `stop_user_monitoring`: `del self.monitoring_areas[chat_id]` when the key
is present, otherwise an informational reply and no change.  The database is
not touched at all. -/
def stop_user_monitoring (st : BotState) (chat : ℕ) : BotState :=
  if List.any st.monitoring (fun kv => kv.1 == chat) then
    { st with monitoring := List.filter (fun kv => ! (kv.1 == chat)) st.monitoring }
  else st

/-! ## Concrete fixtures for closed instances -/

/-- A 5 km-scale box: north 2, south 0, east 2, west 0. -/
def area0 : Area := ⟨2, 0, 2, 0⟩

/-- An airborne flight at latitude 1, longitude 1 with aircraft id abc123. -/
def flight0 : List PyVal := mkState (some "abc123") (some 1) (some 1) false

/-- A world whose feed raises and whose Telegram sink always succeeds. -/
def envSinkOk : MonitorEnv :=
  ⟨fun _ => ApiResult.raised, fun _ _ => true, fun _ => false⟩

/-- A world whose feed raises and whose Telegram sink always fails. -/
def envSinkFail : MonitorEnv :=
  ⟨fun _ => ApiResult.raised, fun _ _ => false, fun _ => false⟩

/-- A world where every feed call returns one flight and every send succeeds,
but processing subscriber 1 raises an exception. -/
def envCrash1 : MonitorEnv :=
  ⟨fun _ => ApiResult.response 200 (some [flight0]), fun _ _ => true,
   fun c => c == 1⟩

/-! ## Helper lemmas -/

/-- The record shape built by `mkState` always has the full 12 fields. -/
theorem length_mkState (icao : Option String) (lon la : Option ℚ) (og : Bool) :
    (mkState icao lon la og).length = 12 := rfl

/-- Field 5 of an `mkState` record is the longitude slot. -/
theorem idx_mkState_5 (icao : Option String) (lon la : Option ℚ) (og : Bool) :
    idx (mkState icao lon la og) 5 = .ok (lon.elim .vNone .vNum) := rfl

/-- Field 6 of an `mkState` record is the latitude slot. -/
theorem idx_mkState_6 (icao : Option String) (lon la : Option ℚ) (og : Bool) :
    idx (mkState icao lon la og) 6 = .ok (la.elim .vNone .vNum) := rfl

/-- Field 8 of an `mkState` record is the on_ground slot. -/
theorem idx_mkState_8 (icao : Option String) (lon la : Option ℚ) (og : Bool) :
    idx (mkState icao lon la og) 8 = .ok (.vBool og) := rfl

/-- Dict update: when the key is present, the in-place map rewrite makes the
entry for that key hold the new value. -/
theorem find?_map_update {β : Type} (mm : List (ℕ × β)) (chat : ℕ) (a : β)
    (h : List.any mm (fun kv => kv.1 == chat) = true) :
    List.find? (fun kv => kv.1 == chat)
      (List.map (fun kv => if kv.1 == chat then (chat, a) else kv) mm)
      = some (chat, a) := by
  induction mm with
  | nil => simp at h
  | cons kv rest ih =>
    by_cases hk : kv.1 = chat
    · simp [hk, List.find?_cons]
    · have h2 : List.any rest (fun kv => kv.1 == chat) = true := by
        simpa [List.any_cons, hk] using h
      simpa [List.find?_cons, hk] using ih h2

/-- Dict update: assigning a key makes a later lookup of that key return the
assigned value, whether the key was present before or not. -/
theorem lookupChat_setChat (mm : List (ℕ × Area)) (chat : ℕ) (a : Area) :
    lookupChat (setChat mm chat a) chat = some a := by
  unfold setChat lookupChat
  by_cases h : List.any mm (fun kv => kv.1 == chat) = true
  · rw [if_pos h, find?_map_update mm chat a h]
    rfl
  · rw [if_neg h]
    have h1 : List.find? (fun kv => kv.1 == chat) mm = none := by
      rw [List.find?_eq_none]
      intro x hx hpx
      exact h (List.any_eq_true.mpr ⟨x, hx, hpx⟩)
    rw [List.find?_append, h1]
    simp [List.find?_cons]

/-! ## Claim theorems -/

/-- C8: `validate_coordinates` returns true iff both latitudes lie in
[-90, 90], both longitudes lie in [-180, 180], north > south and
west < east; violating any one condition makes it return false. -/
theorem C8_validate_iff (north south east west : ℚ) :
    validate_coordinates north south east west = true ↔
      ((-90 ≤ north ∧ north ≤ 90) ∧ (-90 ≤ south ∧ south ≤ 90) ∧
       (-180 ≤ east ∧ east ≤ 180) ∧ (-180 ≤ west ∧ west ≤ 180) ∧
       south < north ∧ west < east) := by
  constructor
  · intro hv
    unfold validate_coordinates at hv
    split_ifs at hv with h1 h2 h3 h4
    push_neg at h1 h2 h3 h4
    exact ⟨⟨h1.1, h1.2.1⟩, ⟨h1.2.2.1, h1.2.2.2⟩, ⟨h2.1, h2.2.1⟩,
      ⟨h2.2.2.1, h2.2.2.2⟩, h3, h4⟩
  · rintro ⟨⟨a1, a2⟩, ⟨a3, a4⟩, ⟨a5, a6⟩, ⟨a7, a8⟩, a9, a10⟩
    unfold validate_coordinates
    rw [if_neg (not_not_intro ⟨a1, a2, a3, a4⟩),
        if_neg (not_not_intro ⟨a5, a6, a7, a8⟩),
        if_neg (not_le_of_lt a9),
        if_neg (not_le_of_lt a10)]

/-- C9: a non-200 response or a raised exception (network failure, timeout)
makes `get_flights_in_area` return an empty flight list, with the error
logged. -/
theorem C9_source_errors (status : ℕ) (body : Option (List (List PyVal)))
    (h : status ≠ 200) :
    (get_flights_in_area (ApiResult.response status body)).1 = []
    ∧ (get_flights_in_area (ApiResult.response status body)).2 ≠ []
    ∧ (get_flights_in_area ApiResult.raised).1 = []
    ∧ (get_flights_in_area ApiResult.raised).2 ≠ [] := by
  simp [get_flights_in_area, h]

/-- Witness for C9 at status 500 with no body. -/
theorem C9_source_errors_witness :
    (get_flights_in_area (ApiResult.response 500 none)).1 = []
    ∧ (get_flights_in_area (ApiResult.response 500 none)).2 ≠ []
    ∧ (get_flights_in_area ApiResult.raised).1 = []
    ∧ (get_flights_in_area ApiResult.raised).2 ≠ [] :=
  C9_source_errors 500 none (by decide)

/-- C2 failing input: a key recorded at t0 = 0 is checked again at
now = 86400 s (24 hours later, far beyond the 30-minute window), yet the
cooldown still suppresses the notification, because `timedelta.seconds`
is the elapsed time modulo one day. -/
theorem C2_cooldown_wraps_after_a_day :
    should_notify (setKey [] (notifKey 1 "abc123") 0) (notifKey 1 "abc123")
      86400 = false
    ∧ 1800 ≤ 86400 - 0 := by decide

/-- C3 failing input: an entry last notified at t0 = 0 is 24 hours old at
now = 86400 s (far beyond the 60-minute expiry), yet the sweep keeps it,
because `timedelta.seconds` is the elapsed time modulo one day. -/
theorem C3_sweep_keeps_day_old_entry :
    sweep [(notifKey 1 "abc123", 0)] 86400 = [(notifKey 1 "abc123", 0)]
    ∧ 3600 ≤ 86400 - 0 := by decide

/-- C1 counterexample: a flight with position present (latitude 0, the
equator; longitude 1), airborne, strictly inside the area
north 1 / south -1 / east 1 / west -1, is reported NOT in the area: the
code's truthiness test `if not latitude` conflates the float 0.0 with a
missing position. -/
theorem C1_zero_latitude_counterexample :
    is_flight_in_area (mkState (some "abc123") (some 1) (some 0) false)
      ⟨1, -1, 1, -1⟩ = false
    ∧ ((-1 : ℚ) ≤ 0 ∧ (0 : ℚ) ≤ 1 ∧ (-1 : ℚ) ≤ 1 ∧ (1 : ℚ) ≤ 1) := by decide

/-- C6 counterexample: with one stored active area for chat 1 that is being
monitored, a stop-monitoring request removes the in-memory entry but leaves
the stored row's active flag at true — it does not flip it to false. -/
theorem C6_stop_keeps_db_flag_counterexample :
    (stop_user_monitoring
        ⟨[⟨1, none, 2, 0, 2, 0, true, 0⟩], [(1, ⟨2, 0, 2, 0⟩)]⟩ 1).monitoring
      = []
    ∧ (get_area (stop_user_monitoring
        ⟨[⟨1, none, 2, 0, 2, 0, true, 0⟩], [(1, ⟨2, 0, 2, 0⟩)]⟩ 1).db 1).map
        AreaRow.is_active = some true := by decide

/-- C7 counterexample: chat 1 has a stored row with created_at = 5; a later
upsert at time 10 replaces the row and its created_at becomes 10 — the
REPLACE does not preserve the original creation time. -/
theorem C7_replace_refreshes_created_at_counterexample :
    (get_area [(⟨1, none, 2, 0, 2, 0, true, 5⟩ : AreaRow)] 1).map
        AreaRow.created_at = some 5
    ∧ (get_area (save_user_area [⟨1, none, 2, 0, 2, 0, true, 5⟩] 1 3 0 3 0 10)
        1).map AreaRow.created_at = some 10 := by decide

/-- C1 (amended): for a full feed record with on_ground false, if both
coordinates are present AND nonzero then the containment test is true iff the
latitude lies in [south, north] and the longitude in [west, east], inclusive
boundaries; when latitude or longitude is absent (None) the test is false.
(The unamended claim fails when a present coordinate equals 0, see the
counterexample.) -/
theorem C1_area_containment (area : Area) (icao : Option String) (lon la : ℚ)
    (hlo : lon ≠ 0) (hla : la ≠ 0) :
    (is_flight_in_area (mkState icao (some lon) (some la) false) area = true ↔
      (area.south ≤ la ∧ la ≤ area.north ∧ area.west ≤ lon ∧ lon ≤ area.east))
    ∧ is_flight_in_area (mkState icao none (some la) false) area = false
    ∧ is_flight_in_area (mkState icao (some lon) none false) area = false := by
  refine ⟨?_, ?_, ?_⟩
  · simp [is_flight_in_area, is_flight_in_area_exc, length_mkState,
      idx_mkState_5, idx_mkState_6, idx_mkState_8, asNum, pyNum, pyTruthy,
      hlo, hla, and_assoc]
  · simp [is_flight_in_area, is_flight_in_area_exc, length_mkState,
      idx_mkState_5, idx_mkState_6, idx_mkState_8, pyTruthy]
  · simp [is_flight_in_area, is_flight_in_area_exc, length_mkState,
      idx_mkState_5, idx_mkState_6, idx_mkState_8, pyTruthy]

/-- Witness for C1 (amended) at latitude 1, longitude 1, area
north 2 / south 0 / east 2 / west 0. -/
theorem C1_area_containment_witness :
    (is_flight_in_area (mkState (some "abc123") (some 1) (some 1) false)
        ⟨2, 0, 2, 0⟩ = true ↔
      ((0 : ℚ) ≤ 1 ∧ (1 : ℚ) ≤ 2 ∧ (0 : ℚ) ≤ 1 ∧ (1 : ℚ) ≤ 2))
    ∧ is_flight_in_area (mkState (some "abc123") none (some 1) false)
        ⟨2, 0, 2, 0⟩ = false
    ∧ is_flight_in_area (mkState (some "abc123") (some 1) none false)
        ⟨2, 0, 2, 0⟩ = false :=
  C1_area_containment ⟨2, 0, 2, 0⟩ (some "abc123") 1 1 (by decide) (by decide)

/-- C6 (amended): a stop-monitoring request only removes the subscriber from
the in-memory active set and never writes the database (so the stored active
flag is untouched, not flipped to false); a start-monitoring request installs
the stored active area into the in-memory set, again without writing the
database; neither request hard-deletes the stored record. -/
theorem C6_soft_lifecycle (st : BotState) (chat : ℕ) :
    (stop_user_monitoring st chat).db = st.db
    ∧ (start_user_monitoring st chat).db = st.db
    ∧ lookupChat (stop_user_monitoring st chat).monitoring chat = none
    ∧ ∀ r, get_active_area st.db chat = some r →
        lookupChat (start_user_monitoring st chat).monitoring chat
          = some ⟨r.north, r.south, r.east, r.west⟩ := by
  refine ⟨?_, ?_, ?_, ?_⟩
  · unfold stop_user_monitoring
    split <;> rfl
  · unfold start_user_monitoring
    cases hr : get_active_area st.db chat <;> simp [hr]
  · unfold stop_user_monitoring
    split
    · unfold lookupChat
      rw [List.find?_filter]
      have h1 : List.find?
          (fun a => decide ((! a.1 == chat) = true ∧ (a.1 == chat) = true))
          st.monitoring = none := by
        rw [List.find?_eq_none]
        intro x _
        simp
      rw [h1]
      rfl
    · rename_i h
      unfold lookupChat
      have h1 : List.find? (fun kv => kv.1 == chat) st.monitoring = none := by
        rw [List.find?_eq_none]
        intro x hx hpx
        exact h (List.any_eq_true.mpr ⟨x, hx, hpx⟩)
      rw [h1]
      rfl
  · intro r hr
    unfold start_user_monitoring
    rw [hr]
    exact lookupChat_setChat _ _ _

/-- Witness for C6 (amended): one stored active area for chat 1, currently
monitored. -/
theorem C6_soft_lifecycle_witness :
    (stop_user_monitoring
        ⟨[⟨1, none, 2, 0, 2, 0, true, 0⟩], [(1, ⟨2, 0, 2, 0⟩)]⟩ 1).db
      = [⟨1, none, 2, 0, 2, 0, true, 0⟩]
    ∧ (start_user_monitoring
        ⟨[⟨1, none, 2, 0, 2, 0, true, 0⟩], [(1, ⟨2, 0, 2, 0⟩)]⟩ 1).db
      = [⟨1, none, 2, 0, 2, 0, true, 0⟩]
    ∧ lookupChat (stop_user_monitoring
        ⟨[⟨1, none, 2, 0, 2, 0, true, 0⟩], [(1, ⟨2, 0, 2, 0⟩)]⟩ 1).monitoring 1
      = none
    ∧ lookupChat (start_user_monitoring
        ⟨[⟨1, none, 2, 0, 2, 0, true, 0⟩], [(1, ⟨2, 0, 2, 0⟩)]⟩ 1).monitoring 1
      = some ⟨2, 0, 2, 0⟩ := by
  have h := C6_soft_lifecycle
    ⟨[⟨1, none, 2, 0, 2, 0, true, 0⟩], [(1, ⟨2, 0, 2, 0⟩)]⟩ 1
  exact ⟨h.1, h.2.1, h.2.2.1, h.2.2.2 ⟨1, none, 2, 0, 2, 0, true, 0⟩ (by decide)⟩

/-- C7 (amended): `save_user_area` replaces any existing area for the
subscriber with a row holding the new bounds, active flag true and
created_at equal to the time of THIS upsert (REPLACE overwrites all fields,
so created_at is refreshed on every upsert, not only the first); rows of
other subscribers are unaffected. -/
theorem C7_upsert_replaces (db : List AreaRow) (chat : ℕ)
    (north south east west : ℚ) (now : ℕ) :
    get_area (save_user_area db chat north south east west now) chat
      = some ⟨chat, none, north, south, east, west, true, now⟩
    ∧ ∀ c, c ≠ chat →
        get_area (save_user_area db chat north south east west now) c
          = get_area db c := by
  constructor
  · unfold get_area save_user_area
    rw [List.find?_append, List.find?_filter]
    have h1 : List.find?
        (fun a => decide ((! a.chat_id == chat) = true ∧ (a.chat_id == chat) = true))
        db = none := by
      rw [List.find?_eq_none]
      intro x _
      simp
    rw [h1]
    simp [List.find?_cons]
  · intro c hc
    unfold get_area save_user_area
    rw [List.find?_append, List.find?_filter]
    have hrow : List.find? (fun r => r.chat_id == c)
        [(⟨chat, none, north, south, east, west, true, now⟩ : AreaRow)]
        = none := by
      simp [List.find?_cons, Ne.symm hc]
    have hpred : (fun r : AreaRow =>
        decide ((! r.chat_id == chat) = true ∧ (r.chat_id == c) = true))
        = fun r : AreaRow => r.chat_id == c := by
      funext r
      by_cases h : r.chat_id = c
      · simp [h, hc]
      · simp [h]
    rw [hpred, hrow]
    simp

/-- Witness for C7 (amended): a database holding a row for chat 2; chat 1
upserts at time 10. -/
theorem C7_upsert_replaces_witness :
    get_area (save_user_area [⟨2, none, 5, 4, 5, 4, true, 7⟩] 1 3 0 3 0 10) 1
      = some ⟨1, none, 3, 0, 3, 0, true, 10⟩
    ∧ get_area (save_user_area [⟨2, none, 5, 4, 5, 4, true, 7⟩] 1 3 0 3 0 10) 2
      = get_area [⟨2, none, 5, 4, 5, 4, true, 7⟩] 2 :=
  ⟨(C7_upsert_replaces [⟨2, none, 5, 4, 5, 4, true, 7⟩] 1 3 0 3 0 10).1,
   (C7_upsert_replaces [⟨2, none, 5, 4, 5, 4, true, 7⟩] 1 3 0 3 0 10).2 2
     (by decide)⟩

/-- C10: the containment test is total over arbitrary feed records — it
always yields a boolean (every raising path is caught and mapped to false) —
and every short record (fewer than 9 fields, including lengths 7 and 8 that
pass the explicit `len < 7` check but lack the on_ground field at index 8)
and every record with a null longitude or latitude is dropped by returning
false. -/
theorem C10_malformed_records (fs : List PyVal) (area : Area) :
    (is_flight_in_area fs area = true ∨ is_flight_in_area fs area = false)
    ∧ (fs.length < 9 → is_flight_in_area fs area = false)
    ∧ (fs.get? 5 = some PyVal.vNone → is_flight_in_area fs area = false)
    ∧ (fs.get? 6 = some PyVal.vNone → is_flight_in_area fs area = false) := by
  refine ⟨?_, ?_, ?_, ?_⟩
  · cases h : is_flight_in_area fs area
    · exact Or.inr rfl
    · exact Or.inl rfl
  · intro h9
    by_cases h7 : fs.length < 7
    · simp [is_flight_in_area, is_flight_in_area_exc, h7]
    · have h8 : idx fs 8 = .error () := by
        unfold idx
        rw [List.get?_eq_none.mpr (by omega : fs.length ≤ 8)]
      rcases h5 : idx fs 5 with _ | v5 <;> rcases h6 : idx fs 6 with _ | v6 <;>
        simp [is_flight_in_area, is_flight_in_area_exc, h7, h5, h6, h8]
  · intro hn5
    by_cases h7 : fs.length < 7
    · simp [is_flight_in_area, is_flight_in_area_exc, h7]
    · have i5 : idx fs 5 = .ok PyVal.vNone := by
        unfold idx
        rw [hn5]
      rcases h6 : idx fs 6 with _ | v6 <;> rcases h8 : idx fs 8 with _ | v8 <;>
        simp [is_flight_in_area, is_flight_in_area_exc, h7, i5, h6, h8,
          pyTruthy]
  · intro hn6
    by_cases h7 : fs.length < 7
    · simp [is_flight_in_area, is_flight_in_area_exc, h7]
    · have i6 : idx fs 6 = .ok PyVal.vNone := by
        unfold idx
        rw [hn6]
      rcases h5 : idx fs 5 with _ | v5 <;> rcases h8 : idx fs 8 with _ | v8 <;>
        simp [is_flight_in_area, is_flight_in_area_exc, h7, i6, h5, h8,
          pyTruthy]

/-- Witness for C10 at a length-8 record whose position fields are null: it
passes the `len < 7` check yet is dropped. -/
theorem C10_malformed_records_witness :
    (is_flight_in_area
        [PyVal.vStr "a", PyVal.vNone, PyVal.vNone, PyVal.vNone, PyVal.vNone,
         PyVal.vNone, PyVal.vNone, PyVal.vNone] area0 = true
      ∨ is_flight_in_area
        [PyVal.vStr "a", PyVal.vNone, PyVal.vNone, PyVal.vNone, PyVal.vNone,
         PyVal.vNone, PyVal.vNone, PyVal.vNone] area0 = false)
    ∧ is_flight_in_area
        [PyVal.vStr "a", PyVal.vNone, PyVal.vNone, PyVal.vNone, PyVal.vNone,
         PyVal.vNone, PyVal.vNone, PyVal.vNone] area0 = false := by
  have h := C10_malformed_records
    [PyVal.vStr "a", PyVal.vNone, PyVal.vNone, PyVal.vNone, PyVal.vNone,
     PyVal.vNone, PyVal.vNone, PyVal.vNone] area0
  exact ⟨h.1, h.2.1 (by decide)⟩

/-- C4: for an event that clears the cooldown filter, the `try`/`except`
around the send records the cooldown entry exactly when the sink call
succeeds; on sink failure the cooldown map is returned unchanged, nothing is
marked delivered, and the failure is logged (the handler returns instead of
raising). -/
theorem C4_record_iff_sink (env : MonitorEnv) (m : CooldownMap) (chat : ℕ)
    (area : Area) (now : ℕ) (fs : List PyVal)
    (hin : is_flight_in_area fs area = true)
    (hsn : should_notify m (notifKey chat (icaoOf fs)) now = true) :
    (env.sink chat (icaoOf fs) = true →
      run_flights env chat area now [fs] m
        = (setKey m (notifKey chat (icaoOf fs)) now, [(chat, icaoOf fs)], []))
    ∧ (env.sink chat (icaoOf fs) = false →
      run_flights env chat area now [fs] m
        = (m, [], ["Failed to send notification to " ++ toString chat])) := by
  constructor <;> intro hs <;>
    simp [run_flights, hin, hsn, handle_event, hs]

/-- Witness for C4: the airborne fixture flight in the fixture area, with an
empty cooldown map, once against an always-succeeding sink and once against
an always-failing sink. -/
theorem C4_record_iff_sink_witness :
    ((envSinkOk.sink 1 (icaoOf flight0) = true →
      run_flights envSinkOk 1 area0 0 [flight0] []
        = (setKey [] (notifKey 1 (icaoOf flight0)) 0, [(1, icaoOf flight0)],
           []))
    ∧ (envSinkOk.sink 1 (icaoOf flight0) = false →
      run_flights envSinkOk 1 area0 0 [flight0] []
        = ([], [], ["Failed to send notification to " ++ toString 1])))
    ∧ ((envSinkFail.sink 1 (icaoOf flight0) = true →
      run_flights envSinkFail 1 area0 0 [flight0] []
        = (setKey [] (notifKey 1 (icaoOf flight0)) 0, [(1, icaoOf flight0)],
           []))
    ∧ (envSinkFail.sink 1 (icaoOf flight0) = false →
      run_flights envSinkFail 1 area0 0 [flight0] []
        = ([], [], ["Failed to send notification to " ++ toString 1]))) :=
  ⟨C4_record_iff_sink envSinkOk [] 1 area0 0 flight0 (by decide) (by decide),
   C4_record_iff_sink envSinkFail [] 1 area0 0 flight0 (by decide) (by decide)⟩

/-- C5: a subscriber whose processing raises (the per-subscriber except
branch) or whose feed fetch raises contributes nothing to the cycle: the
final cooldown map and the successful deliveries of the whole cycle are
exactly those of the cycle without that subscriber, so every other
subscriber is still processed and still receives its notifications; the
cycle itself is a total function, so no exception escapes it. -/
theorem C5_subscriber_isolation (env : MonitorEnv) (now : ℕ) (x : ℕ)
    (ax : Area) (pre post : List (ℕ × Area)) (m : CooldownMap)
    (h : env.crash x = true ∨ env.fetch x = ApiResult.raised) :
    (run_cycle env now (pre ++ (x, ax) :: post) m).1
      = (run_cycle env now (pre ++ post) m).1
    ∧ (run_cycle env now (pre ++ (x, ax) :: post) m).2.1
      = (run_cycle env now (pre ++ post) m).2.1 := by
  induction pre generalizing m with
  | nil =>
    rcases h with hc | hf
    · simp [run_cycle, hc]
    · by_cases hc : env.crash x = true
      · simp [run_cycle, hc]
      · simp [run_cycle, hc, hf, get_flights_in_area, run_flights]
  | cons p rest ih =>
    obtain ⟨c, a⟩ := p
    by_cases hc : env.crash c = true
    · have hih := ih m
      simp [run_cycle, hc, hih.1, hih.2]
    · have hih := ih
        (run_flights env c a now (get_flights_in_area (env.fetch c)).1 m).1
      simp [run_cycle, hc, hih.1, hih.2]

/-- Witness for C5: subscriber 1 crashes while subscriber 2, sharing the
cycle, is unaffected. -/
theorem C5_subscriber_isolation_witness :
    (run_cycle envCrash1 0 ([] ++ (1, area0) :: [(2, area0)]) []).1
      = (run_cycle envCrash1 0 ([] ++ [(2, area0)]) []).1
    ∧ (run_cycle envCrash1 0 ([] ++ (1, area0) :: [(2, area0)]) []).2.1
      = (run_cycle envCrash1 0 ([] ++ [(2, area0)]) []).2.1 :=
  C5_subscriber_isolation envCrash1 0 1 area0 [] [(2, area0)] []
    (Or.inl (by decide))

end AeroEyeBot
